import Mathlib

/-!
Formal model of the NFC capability probe of this repository.

The repository contains two near-duplicate implementations of one React
component that probes device NFC capability:

* the retry variant (`src/unnamed/part_000`): an Expo Go (restricted host)
  pre-check, a module-level `initializeNfcManager`, the sequential checks
  `isSupported()` then `isEnabled()` then `start()`, an `isMounted` liveness
  flag guarding every state update, and a bounded retry loop (at most
  `maxRetries = 3` retries, 2000 ms apart) on the outer-catch failure path;

* the simple variant (`src/src/App_new.js`): a module-level `require` that may
  leave `NfcManager` null, the same three sequential checks, no retry and no
  liveness flag.

Both `checkNfc` functions are embedded below as pure functions over an oracle
of provider responses. A provider call either resolves with a value or rejects
with an error message string.
-/

/-- Outcome of one asynchronous provider call: it either resolves with a value
(`ok`) or rejects with an error whose `.message` is the carried string. -/
inductive CallResult (α : Type) where
  | ok : α → CallResult α
  | err : String → CallResult α
  deriving DecidableEq, Repr

/-- The provider calls the probe can make, in source order: the
`initializeNfcManager()` call, then `manager.isSupported()`,
`manager.isEnabled()`, `manager.start()`. -/
inductive ProviderCall where
  | initCall
  | supportedCall
  | enabledCall
  | startCall
  deriving DecidableEq, Repr

/-- The `nfcState` React state of the retry variant (`src/unnamed/part_000`,
lines 39-46): `isSupported`, `isEnabled`, `error`, `loading`, `platform`,
`isExpoGo`. `error` is `none` for JS `null`. -/
structure NfcState where
  isSupported : Bool
  isEnabled : Bool
  error : Option String
  loading : Bool
  platform : String
  isExpoGo : Bool
  deriving DecidableEq, Repr

/-- The initial state of the retry variant at mount: `isSupported := false`,
`isEnabled := false`, `error := null`, `loading := true`,
`platform := Platform.OS`, `isExpoGo := isExpoGo`. -/
def initialNfcState (g : Bool) (p : String) : NfcState :=
  { isSupported := false,
    isEnabled := false,
    error := none,
    loading := true,
    platform := p,
    isExpoGo := g }

/-- One run's worth of provider responses for the retry variant: the outcomes
the oracle would give to `initializeNfcManager()`, `isSupported()`,
`isEnabled()` and `start()` if the probe reaches each call. -/
structure ProviderRun where
  initResult : CallResult Unit
  supportedResult : CallResult Bool
  enabledResult : CallResult Bool
  startResult : CallResult Unit
  deriving DecidableEq, Repr

/-- What one `checkNfc` run of the retry variant produces: the `nfcState`
after the run (unchanged when the `isMounted` guard blocked the update), the
`retryCount.current` ref after the run, the delay of the `setTimeout` retry
timer scheduled by the run (`none` when no timer was scheduled), and the list
of provider calls the run made. -/
structure RunOutcome where
  state : NfcState
  retryCount : Nat
  timerDelay : Option Nat
  calls : List ProviderCall
  deriving DecidableEq, Repr

/-- The maximum number of retries of the retry variant
(`const maxRetries = 3`). -/
def maxRetries : Nat := 3

/-- The fixed retry delay in milliseconds of the retry variant
(`setTimeout(checkNfc, 2000)`). -/
def retryDelayMs : Nat := 2000

/-- JS `m || fallback` on an error message: the empty string is falsy and is
replaced by the fallback. -/
def msgOr (m fallback : String) : String :=
  if m = "" then fallback else m

/-- The outer `catch` block of the retry variant (`src/unnamed/part_000`,
lines 155-173): when mounted, set the failure state and, if not in Expo Go and
`retryCount.current < maxRetries`, increment the retry count and schedule a
2000 ms retry timer; when unmounted, do nothing. -/
def outerCatch (g : Bool) (m : String) (mounted : Bool) (s : NfcState)
    (rc : Nat) (calls : List ProviderCall) : RunOutcome :=
  if mounted then
    { state :=
        { s with
          isSupported := false,
          isEnabled := false,
          error := some (msgOr m "Failed to check NFC support"),
          loading := false },
      retryCount := if g = false ∧ rc < maxRetries then rc + 1 else rc,
      timerDelay := if g = false ∧ rc < maxRetries then some retryDelayMs else none,
      calls := calls }
  else
    { state := s, retryCount := rc, timerDelay := none, calls := calls }

/-- The `checkNfc` function of the retry variant (`src/unnamed/part_000`,
lines 55-174). `g` is the module-level `isExpoGo` flag, `r` the provider
response oracle, `mounted` the value of the `isMounted` liveness flag when the
callbacks fire, `s` the previous `nfcState` and `rc` the `retryCount.current`
ref before the run. -/
def checkNfc (g : Bool) (r : ProviderRun) (mounted : Bool) (s : NfcState)
    (rc : Nat) : RunOutcome :=
  if g then
    { state :=
        if mounted then
          { s with
            isSupported := false,
            isEnabled := false,
            error := some "NFC is not supported in Expo Go. Please use a development build.",
            loading := false }
        else s,
      retryCount := rc,
      timerDelay := none,
      calls := [] }
  else
    match r.initResult with
    | CallResult.err m => outerCatch g m mounted s rc [ProviderCall.initCall]
    | CallResult.ok _ =>
      match r.supportedResult with
      | CallResult.err m =>
          outerCatch g m mounted s rc [ProviderCall.initCall, ProviderCall.supportedCall]
      | CallResult.ok false =>
          { state :=
              if mounted then
                { s with
                  isSupported := false,
                  isEnabled := false,
                  error := some "This device does not have NFC hardware",
                  loading := false }
              else s,
            retryCount := rc,
            timerDelay := none,
            calls := [ProviderCall.initCall, ProviderCall.supportedCall] }
      | CallResult.ok true =>
        match r.enabledResult with
        | CallResult.err m =>
            { state :=
                if mounted then
                  { s with
                    isSupported := true,
                    isEnabled := false,
                    error := some ("Failed to check NFC status: " ++ m),
                    loading := false }
                else s,
              retryCount := rc,
              timerDelay := none,
              calls := [ProviderCall.initCall, ProviderCall.supportedCall,
                ProviderCall.enabledCall] }
        | CallResult.ok false =>
            { state :=
                if mounted then
                  { s with
                    isSupported := true,
                    isEnabled := false,
                    error := some "NFC is not enabled. Please enable NFC in your device settings.",
                    loading := false }
                else s,
              retryCount := rc,
              timerDelay := none,
              calls := [ProviderCall.initCall, ProviderCall.supportedCall,
                ProviderCall.enabledCall] }
        | CallResult.ok true =>
          match r.startResult with
          | CallResult.ok _ =>
              { state :=
                  if mounted then
                    { s with
                      isSupported := true,
                      isEnabled := true,
                      error := none,
                      loading := false }
                  else s,
                retryCount := 0,
                timerDelay := none,
                calls := [ProviderCall.initCall, ProviderCall.supportedCall,
                  ProviderCall.enabledCall, ProviderCall.startCall] }
          | CallResult.err m =>
              { state :=
                  if mounted then
                    { s with
                      isSupported := true,
                      isEnabled := true,
                      error := some ("Failed to start NFC: " ++ m),
                      loading := false }
                  else s,
                retryCount := rc,
                timerDelay := none,
                calls := [ProviderCall.initCall, ProviderCall.supportedCall,
                  ProviderCall.enabledCall, ProviderCall.startCall] }

/-- The `nfcState` of the simple variant (`src/src/App_new.js`, lines 12-17):
`isSupported`, `isEnabled`, `error`, `loading`. -/
structure NfcStateB where
  isSupported : Bool
  isEnabled : Bool
  error : Option String
  loading : Bool
  deriving DecidableEq, Repr

/-- One run's worth of provider responses for the simple variant (it has no
`initializeNfcManager` call; the module-level `require` is modelled by the
`managerAvailable` argument of `checkNfcB`). -/
structure ProviderRunB where
  supportedResult : CallResult Bool
  enabledResult : CallResult Bool
  startResult : CallResult Unit
  deriving DecidableEq, Repr

/-- What one `checkNfc` run of the simple variant produces: the state it sets
and the provider calls it made. The simple variant has no retry timer and no
retry counter. -/
structure RunOutcomeB where
  state : NfcStateB
  calls : List ProviderCall
  deriving DecidableEq, Repr

/-- The `checkNfc` function of the simple variant (`src/src/App_new.js`,
lines 20-83). `managerAvailable` is whether the module-level `require` left
`NfcManager` non-null. All `setNfcState` calls of this variant replace the
whole state object. -/
def checkNfcB (managerAvailable : Bool) (r : ProviderRunB) : RunOutcomeB :=
  if managerAvailable = false then
    { state :=
        { isSupported := false,
          isEnabled := false,
          error := some "NFC module not available. Please use a development build.",
          loading := false },
      calls := [] }
  else
    match r.supportedResult with
    | CallResult.err m =>
        { state :=
            { isSupported := false,
              isEnabled := false,
              error := some (msgOr m "Unknown NFC error"),
              loading := false },
          calls := [ProviderCall.supportedCall] }
    | CallResult.ok sup =>
      if sup then
        match r.enabledResult with
        | CallResult.err m =>
            { state :=
                { isSupported := sup,
                  isEnabled := false,
                  error := some ("Failed to check NFC status: " ++ m),
                  loading := false },
              calls := [ProviderCall.supportedCall, ProviderCall.enabledCall] }
        | CallResult.ok en =>
          if en then
            match r.startResult with
            | CallResult.err m =>
                { state :=
                    { isSupported := sup,
                      isEnabled := en,
                      error := some ("Failed to start NFC: " ++ m),
                      loading := false },
                  calls := [ProviderCall.supportedCall, ProviderCall.enabledCall,
                    ProviderCall.startCall] }
            | CallResult.ok _ =>
                { state :=
                    { isSupported := sup,
                      isEnabled := en,
                      error := none,
                      loading := false },
                  calls := [ProviderCall.supportedCall, ProviderCall.enabledCall,
                    ProviderCall.startCall] }
          else
            { state :=
                { isSupported := sup,
                  isEnabled := en,
                  error := none,
                  loading := false },
              calls := [ProviderCall.supportedCall, ProviderCall.enabledCall] }
      else
        { state :=
            { isSupported := sup,
              isEnabled := false,
              error := none,
              loading := false },
          calls := [ProviderCall.supportedCall] }

/-- Following the spec's fixed order (restricted-host pre-check, then
initialization, then `isSupported`, then `isEnabled`, then `start`): the
designated error message of the first step that fails or returns a negative
result, and `none` when every step succeeds. This definition follows the
spec's words for the refinement claim about the retry variant. -/
def specFirstFailureError (g : Bool) (r : ProviderRun) : Option String :=
  if g then
    some "NFC is not supported in Expo Go. Please use a development build."
  else
    match r.initResult with
    | CallResult.err m => some (msgOr m "Failed to check NFC support")
    | CallResult.ok _ =>
      match r.supportedResult with
      | CallResult.err m => some (msgOr m "Failed to check NFC support")
      | CallResult.ok false => some "This device does not have NFC hardware"
      | CallResult.ok true =>
        match r.enabledResult with
        | CallResult.err m => some ("Failed to check NFC status: " ++ m)
        | CallResult.ok false =>
            some "NFC is not enabled. Please enable NFC in your device settings."
        | CallResult.ok true =>
          match r.startResult with
          | CallResult.err m => some ("Failed to start NFC: " ++ m)
          | CallResult.ok _ => none

/-- Following the spec's fixed order: the provider calls made up to and
including the first failing or negative step; later steps are never invoked.
This definition follows the spec's words for the refinement claim about the
retry variant. -/
def specCallsMade (g : Bool) (r : ProviderRun) : List ProviderCall :=
  if g then []
  else
    match r.initResult with
    | CallResult.err _ => [ProviderCall.initCall]
    | CallResult.ok _ =>
      match r.supportedResult with
      | CallResult.err _ => [ProviderCall.initCall, ProviderCall.supportedCall]
      | CallResult.ok false => [ProviderCall.initCall, ProviderCall.supportedCall]
      | CallResult.ok true =>
        match r.enabledResult with
        | CallResult.err _ =>
            [ProviderCall.initCall, ProviderCall.supportedCall, ProviderCall.enabledCall]
        | CallResult.ok false =>
            [ProviderCall.initCall, ProviderCall.supportedCall, ProviderCall.enabledCall]
        | CallResult.ok true =>
            [ProviderCall.initCall, ProviderCall.supportedCall, ProviderCall.enabledCall,
              ProviderCall.startCall]

/-- Following the spec's fixed order for the simple variant (`isSupported`,
then `isEnabled`, then `start`): the designated error message of the first
step that fails; `none` when no reached step fails (in the simple variant a
negative `isSupported` or `isEnabled` result short-circuits with a null
error). This definition follows the spec's words for the refinement claim
about the simple variant. -/
def specFirstFailureErrorB (r : ProviderRunB) : Option String :=
  match r.supportedResult with
  | CallResult.err m => some (msgOr m "Unknown NFC error")
  | CallResult.ok false => none
  | CallResult.ok true =>
    match r.enabledResult with
    | CallResult.err m => some ("Failed to check NFC status: " ++ m)
    | CallResult.ok false => none
    | CallResult.ok true =>
      match r.startResult with
      | CallResult.err m => some ("Failed to start NFC: " ++ m)
      | CallResult.ok _ => none

/-- Following the spec's fixed order for the simple variant: the provider
calls made up to and including the first failing or negative step. -/
def specCallsMadeB (r : ProviderRunB) : List ProviderCall :=
  match r.supportedResult with
  | CallResult.err _ => [ProviderCall.supportedCall]
  | CallResult.ok false => [ProviderCall.supportedCall]
  | CallResult.ok true =>
    match r.enabledResult with
    | CallResult.err _ => [ProviderCall.supportedCall, ProviderCall.enabledCall]
    | CallResult.ok false => [ProviderCall.supportedCall, ProviderCall.enabledCall]
    | CallResult.ok true =>
        [ProviderCall.supportedCall, ProviderCall.enabledCall, ProviderCall.startCall]

/-- A provider oracle whose `initializeNfcManager()` call rejects with message
`m`: the later calls are never reached. -/
def initFailRun (m : String) : ProviderRun :=
  { initResult := CallResult.err m,
    supportedResult := CallResult.ok false,
    enabledResult := CallResult.ok false,
    startResult := CallResult.ok () }

/-- Run the retry variant's probe against a sequence of consecutive
initialization failures (messages `ms`), the component staying mounted:
each run that schedules a retry timer is followed by the next failing run;
the loop stops at the first run that schedules no timer or when the failures
run out. Returns the final `nfcState`, the final `retryCount.current`, and
the number of retry timers scheduled (each of which fires one retry). -/
def runInitFailures : List String → NfcState → Nat → NfcState × Nat × Nat
  | [], s, rc => (s, rc, 0)
  | m :: ms, s, rc =>
    let o := checkNfc false (initFailRun m) true s rc
    match o.timerDelay with
    | some _ =>
      let rest := runInitFailures ms o.state o.retryCount
      (rest.1, rest.2.1, rest.2.2 + 1)
    | none => (o.state, o.retryCount, 0)

/-- The mutable component context of the retry variant: the `isMounted`
liveness flag, the pending `retryTimeout` timer (its delay, `none` when no
timer is pending), the `nfcState`, and the `retryCount.current` ref. -/
structure ProbeComponent where
  mounted : Bool
  pendingTimer : Option Nat
  nfc : NfcState
  retryCount : Nat
  deriving DecidableEq, Repr

/-- The effect-cleanup function of the retry variant (`src/unnamed/part_000`,
lines 178-190): set `isMounted = false` and clear the pending retry timer
(`clearTimeout(retryTimeout)`); the best-effort provider cancel touches no
component state. -/
def teardown (c : ProbeComponent) : ProbeComponent :=
  { c with mounted := false, pendingTimer := none }

/-- One `checkNfc` run resolving against the component context: the run sees
the current `isMounted` flag, and the component takes over the run's state,
retry count and scheduled timer. -/
def runStep (c : ProbeComponent) (g : Bool) (r : ProviderRun) : ProbeComponent :=
  let o := checkNfc g r c.mounted c.nfc c.retryCount
  { c with nfc := o.state, retryCount := o.retryCount, pendingTimer := o.timerDelay }

/-- The `nfcState` values (with the accompanying `retryCount.current`) the
retry variant can ever hold: the initial state at mount, and the result of
any `checkNfc` run (any provider responses, mounted or not) from a reachable
state. -/
inductive ReachableA (g : Bool) (p : String) : NfcState → Nat → Prop where
  | mount : ReachableA g p (initialNfcState g p) 0
  | step (s : NfcState) (rc : Nat) (r : ProviderRun) (mo : Bool) :
      ReachableA g p s rc →
      ReachableA g p (checkNfc g r mo s rc).state (checkNfc g r mo s rc).retryCount


theorem checkNfc_initFailure_eq (m : String) (s : NfcState) (rc : Nat) :
    checkNfc false (initFailRun m) true s rc =
      { state :=
          { s with
            isSupported := false,
            isEnabled := false,
            error := some (msgOr m "Failed to check NFC support"),
            loading := false },
        retryCount := if rc < maxRetries then rc + 1 else rc,
        timerDelay := if rc < maxRetries then some retryDelayMs else none,
        calls := [ProviderCall.initCall] } := by
  by_cases h : rc < maxRetries <;>
    simp [checkNfc, outerCatch, initFailRun, h]

theorem runInitFailures_retries (ms : List String) :
    ∀ (s : NfcState) (rc : Nat), rc ≤ maxRetries →
      (runInitFailures ms s rc).2.2 = min (maxRetries - rc) ms.length := by
  induction ms with
  | nil => intro s rc h; simp [runInitFailures]
  | cons m ms ih =>
    intro s rc h
    by_cases hrc : rc < maxRetries
    · simp only [runInitFailures, checkNfc_initFailure_eq, if_pos hrc]
      rw [ih _ (rc + 1) (by omega)]
      simp only [maxRetries] at *
      simp only [List.length_cons]
      omega
    · simp only [runInitFailures, checkNfc_initFailure_eq, if_neg hrc]
      simp only [maxRetries] at *
      simp only [List.length_cons]
      omega

theorem checkNfc_preserves_support_inv (g : Bool) (r : ProviderRun) (mo : Bool)
    (s : NfcState) (rc : Nat)
    (hs : s.isSupported = false → s.isEnabled = false) :
    (checkNfc g r mo s rc).state.isSupported = false →
      (checkNfc g r mo s rc).state.isEnabled = false := by
  rcases r with ⟨ir, sr, er, tr⟩
  cases g <;> cases mo <;> cases ir <;>
    rcases sr with (_|_) | msr <;>
    rcases er with (_|_) | mer <;>
    rcases tr with _ | mtr <;>
    simp [checkNfc, outerCatch] <;>
    exact hs

/-- C1: for every sequence of provider responses, the error of the final
emitted state is the designated error of the first failing or negative step in
the fixed order (restricted host, initialization, `isSupported`, `isEnabled`,
`start`), and the calls made stop at that step, so no later step's failure is
ever reported; this holds for the retry variant and for the simple variant. -/
theorem c1_error_matches_first_failing_step :
    (∀ (g : Bool) (r : ProviderRun) (s : NfcState) (rc : Nat),
      (checkNfc g r true s rc).state.error = specFirstFailureError g r ∧
      ∀ (mo : Bool), (checkNfc g r mo s rc).calls = specCallsMade g r) ∧
    (∀ (r : ProviderRunB),
      (checkNfcB true r).state.error = specFirstFailureErrorB r ∧
      (checkNfcB true r).calls = specCallsMadeB r) := by
  constructor
  · intro g r s rc
    rcases r with ⟨ir, sr, er, tr⟩
    constructor
    · cases g <;> cases ir <;>
        rcases sr with (_|_) | msr <;>
        rcases er with (_|_) | mer <;>
        rcases tr with _ | mtr <;>
        simp [checkNfc, outerCatch, specFirstFailureError]
    · intro mo
      cases g <;> cases mo <;> cases ir <;>
        rcases sr with (_|_) | msr <;>
        rcases er with (_|_) | mer <;>
        rcases tr with _ | mtr <;>
        simp [checkNfc, outerCatch, specCallsMade]
  · intro r
    rcases r with ⟨sr, er, tr⟩
    constructor <;>
      (rcases sr with (_|_) | msr <;>
       rcases er with (_|_) | mer <;>
       rcases tr with _ | mtr <;>
       simp [checkNfcB, specFirstFailureErrorB, specCallsMadeB])

/-- C2: against any run of consecutive initialization failures starting from a
fresh retry count, the retry variant schedules exactly `min maxRetries k`
retries (`maxRetries = 3`); after the failure that follows the 3rd retry the
state keeps the initialization-failure error with `loading := false` and the
retry count stays 3; a failing run at retry count 3 schedules no timer; and
every timer the probe ever schedules has the fixed 2000 ms delay. -/
theorem c2_init_failure_retry_policy :
    (∀ (ms : List String) (s : NfcState),
      (runInitFailures ms s 0).2.2 = min maxRetries ms.length) ∧
    (∀ (m1 m2 m3 m4 : String) (rest : List String) (s : NfcState),
      (runInitFailures (m1 :: m2 :: m3 :: m4 :: rest) s 0).2.2 = maxRetries ∧
      (runInitFailures (m1 :: m2 :: m3 :: m4 :: rest) s 0).1.error =
        some (msgOr m4 "Failed to check NFC support") ∧
      (runInitFailures (m1 :: m2 :: m3 :: m4 :: rest) s 0).1.loading = false ∧
      (runInitFailures (m1 :: m2 :: m3 :: m4 :: rest) s 0).2.1 = maxRetries) ∧
    (∀ (m : String) (s : NfcState),
      (checkNfc false (initFailRun m) true s maxRetries).timerDelay = none) ∧
    (∀ (g : Bool) (r : ProviderRun) (mo : Bool) (s : NfcState) (rc : Nat),
      (checkNfc g r mo s rc).timerDelay = none ∨
      (checkNfc g r mo s rc).timerDelay = some 2000) := by
  refine ⟨?_, ?_, ?_, ?_⟩
  · intro ms s
    have := runInitFailures_retries ms s 0 (by simp [maxRetries])
    simpa using this
  · intro m1 m2 m3 m4 rest s
    refine ⟨?_, ?_⟩
    · have := runInitFailures_retries (m1 :: m2 :: m3 :: m4 :: rest) s 0 (by simp [maxRetries])
      simp only [maxRetries] at *
      simp only [List.length_cons] at this
      omega
    · simp only [runInitFailures, checkNfc_initFailure_eq]
      norm_num [maxRetries]
  · intro m s
    simp [checkNfc, outerCatch, initFailRun, maxRetries]
  · intro g r mo s rc
    rcases r with ⟨ir, sr, er, tr⟩
    cases g <;> cases mo <;> cases ir <;>
      rcases sr with (_|_) | msr <;>
      rcases er with (_|_) | mer <;>
      rcases tr with _ | mtr <;>
      simp [checkNfc, outerCatch, retryDelayMs, maxRetries] <;>
      omega

/-- C3: when the restricted-host flag (`isExpoGo`) is true, the probe of the
retry variant emits the single terminal state with `supported := false`,
`enabled := false`, the restricted-host error message and `loading := false`,
makes zero provider calls, schedules no retry timer and leaves the retry
count unchanged, whatever the provider would have answered. -/
theorem c3_restricted_host_short_circuit :
    ∀ (r : ProviderRun) (s : NfcState) (rc : Nat) (mo : Bool),
      (checkNfc true r true s rc).state =
        { s with
          isSupported := false,
          isEnabled := false,
          error := some "NFC is not supported in Expo Go. Please use a development build.",
          loading := false } ∧
      (checkNfc true r mo s rc).calls = [] ∧
      (checkNfc true r mo s rc).timerDelay = none ∧
      (checkNfc true r mo s rc).retryCount = rc := by
  intro r s rc mo
  refine ⟨rfl, rfl, rfl, rfl⟩

/-- C4 counterexample: in the simple variant, when `isSupported()` resolves
true and `isEnabled()` resolves false, the emitted terminal state carries a
null error rather than a non-null radio-disabled message, refuting the claim
as stated. -/
theorem c4_counterexample_null_error_in_simple_variant :
    (checkNfcB true
      { supportedResult := CallResult.ok true,
        enabledResult := CallResult.ok false,
        startResult := CallResult.ok () }).state =
      { isSupported := true, isEnabled := false, error := none, loading := false } := rfl

/-- C4 (amended): when `isSupported()` resolves true and `isEnabled()`
resolves false, each variant emits the terminal state with
`supported := true`, `enabled := false`, `loading := false` and schedules no
retry; the retry variant's error is the non-null radio-disabled message,
while the simple variant's error is null. -/
theorem c4_radio_disabled_terminal :
    (∀ (st : CallResult Unit) (s : NfcState) (rc : Nat),
      (checkNfc false ⟨CallResult.ok (), CallResult.ok true, CallResult.ok false, st⟩
          true s rc).state =
        { s with
          isSupported := true,
          isEnabled := false,
          error := some "NFC is not enabled. Please enable NFC in your device settings.",
          loading := false } ∧
      (checkNfc false ⟨CallResult.ok (), CallResult.ok true, CallResult.ok false, st⟩
          true s rc).timerDelay = none ∧
      (checkNfc false ⟨CallResult.ok (), CallResult.ok true, CallResult.ok false, st⟩
          true s rc).retryCount = rc) ∧
    (∀ (st : CallResult Unit),
      (checkNfcB true ⟨CallResult.ok true, CallResult.ok false, st⟩).state =
        { isSupported := true, isEnabled := false, error := none, loading := false }) := by
  exact ⟨fun st s rc => ⟨rfl, rfl, rfl⟩, fun st => rfl⟩

/-- C5: when `isSupported()` resolves true, `isEnabled()` resolves true and
`start()` resolves, the retry variant emits the terminal state
`supported := true`, `enabled := true`, `error := null`, `loading := false`,
resets the retry count to 0 and schedules no timer; the simple variant emits
the same four state fields. -/
theorem c5_success_resets_retry_count :
    (∀ (s : NfcState) (rc : Nat),
      checkNfc false ⟨CallResult.ok (), CallResult.ok true, CallResult.ok true, CallResult.ok ()⟩
          true s rc =
        { state :=
            { s with
              isSupported := true,
              isEnabled := true,
              error := none,
              loading := false },
          retryCount := 0,
          timerDelay := none,
          calls := [ProviderCall.initCall, ProviderCall.supportedCall,
            ProviderCall.enabledCall, ProviderCall.startCall] }) ∧
    (checkNfcB true ⟨CallResult.ok true, CallResult.ok true, CallResult.ok ()⟩).state =
      { isSupported := true, isEnabled := true, error := none, loading := false } := by
  exact ⟨fun s rc => rfl, rfl⟩

/-- C6: when the provider resolves `isSupported()` true, `isEnabled()` true
and `start()` rejects with message "busy", the final state of each variant is
`supported := true`, `enabled := true`, `error := "Failed to start NFC: busy"`,
`loading := false`, and the retry variant schedules no retry timer. -/
theorem c6_start_busy_failure :
    (checkNfc false ⟨CallResult.ok (), CallResult.ok true, CallResult.ok true,
        CallResult.err "busy"⟩ true (initialNfcState false "android") 0).state =
      { isSupported := true,
        isEnabled := true,
        error := some "Failed to start NFC: busy",
        loading := false,
        platform := "android",
        isExpoGo := false } ∧
    (checkNfc false ⟨CallResult.ok (), CallResult.ok true, CallResult.ok true,
        CallResult.err "busy"⟩ true (initialNfcState false "android") 0).timerDelay = none ∧
    (checkNfcB true ⟨CallResult.ok true, CallResult.ok true, CallResult.err "busy"⟩).state =
      { isSupported := true,
        isEnabled := true,
        error := some "Failed to start NFC: busy",
        loading := false } := by
  exact ⟨rfl, rfl, rfl⟩

/-- C7: in every state the retry variant can ever hold (the initial state at
mount and every state produced by any probe run or retry under any provider
responses), `isSupported = false` implies `isEnabled = false`; every state the
simple variant sets satisfies the same implication. -/
theorem c7_unsupported_implies_disabled :
    (∀ (g : Bool) (p : String) (s : NfcState) (rc : Nat),
      ReachableA g p s rc → s.isSupported = false → s.isEnabled = false) ∧
    (∀ (mgr : Bool) (r : ProviderRunB),
      (checkNfcB mgr r).state.isSupported = false →
        (checkNfcB mgr r).state.isEnabled = false) := by
  constructor
  · intro g p s rc h
    induction h with
    | mount => intro _; rfl
    | step s rc r mo hr ih => exact checkNfc_preserves_support_inv g r mo s rc ih
  · intro mgr r
    rcases r with ⟨sr, er, tr⟩
    cases mgr <;>
      rcases sr with (_|_) | msr <;>
      rcases er with (_|_) | mer <;>
      rcases tr with _ | mtr <;>
      simp [checkNfcB]

/-- C7 witness: the implication evaluated at the initial state of the retry
variant and at a concrete unsupported-device run of the simple variant. -/
theorem c7_witness :
    (initialNfcState false "android").isEnabled = false ∧
    (checkNfcB true
      ⟨CallResult.ok false, CallResult.ok false, CallResult.ok ()⟩).state.isEnabled
        = false := by
  exact ⟨c7_unsupported_implies_disabled.1 false "android" _ 0 ReachableA.mount rfl,
    c7_unsupported_implies_disabled.2 true _ rfl⟩

/-- C8: after teardown, the pending retry timer is cleared, and any in-flight
`checkNfc` callback resolving afterwards (any provider responses) is discarded
by the liveness flag: the `nfcState` is unchanged and no new timer is
scheduled. -/
theorem c8_no_state_update_after_teardown :
    ∀ (c : ProbeComponent) (g : Bool) (r : ProviderRun),
      (teardown c).pendingTimer = none ∧
      (runStep (teardown c) g r).nfc = c.nfc ∧
      (runStep (teardown c) g r).pendingTimer = none := by
  intro c g r
  refine ⟨rfl, ?_, ?_⟩ <;>
    (rcases r with ⟨ir, sr, er, tr⟩
     cases g <;> cases ir <;>
       rcases sr with (_|_) | msr <;>
       rcases er with (_|_) | mer <;>
       rcases tr with _ | mtr <;>
       simp [runStep, teardown, checkNfc, outerCatch])

/-- C9: when `isSupported()` resolves false, each variant emits a terminal
state with `enabled := false` and schedules no retry, for every value of the
retry count: the retry variant reports the hardware-absent error and leaves
the retry count unchanged, and neither variant calls `isEnabled()` or
`start()`. -/
theorem c9_unsupported_is_terminal :
    (∀ (er : CallResult Bool) (st : CallResult Unit) (s : NfcState) (rc : Nat) (mo : Bool),
      (checkNfc false ⟨CallResult.ok (), CallResult.ok false, er, st⟩ true s rc).state =
        { s with
          isSupported := false,
          isEnabled := false,
          error := some "This device does not have NFC hardware",
          loading := false } ∧
      (checkNfc false ⟨CallResult.ok (), CallResult.ok false, er, st⟩ mo s rc).timerDelay
        = none ∧
      (checkNfc false ⟨CallResult.ok (), CallResult.ok false, er, st⟩ mo s rc).retryCount
        = rc ∧
      (checkNfc false ⟨CallResult.ok (), CallResult.ok false, er, st⟩ mo s rc).calls =
        [ProviderCall.initCall, ProviderCall.supportedCall]) ∧
    (∀ (er : CallResult Bool) (st : CallResult Unit),
      (checkNfcB true ⟨CallResult.ok false, er, st⟩).state =
        { isSupported := false, isEnabled := false, error := none, loading := false } ∧
      (checkNfcB true ⟨CallResult.ok false, er, st⟩).calls = [ProviderCall.supportedCall]) := by
  constructor
  · intro er st s rc mo
    refine ⟨rfl, ?_, ?_, ?_⟩ <;> cases mo <;> rfl
  · intro er st
    exact ⟨rfl, rfl⟩

/-- C10: every state update of the retry variant spreads the previous state
and overwrites only `isSupported`, `isEnabled`, `error` and `loading`, so on
any branch of any run the `platform` and `isExpoGo` fields are unchanged, and
every reachable state carries their mount-time values. -/
theorem c10_platform_and_expo_flag_frame :
    (∀ (g : Bool) (r : ProviderRun) (mo : Bool) (s : NfcState) (rc : Nat),
      (checkNfc g r mo s rc).state.platform = s.platform ∧
      (checkNfc g r mo s rc).state.isExpoGo = s.isExpoGo) ∧
    (∀ (g : Bool) (p : String) (s : NfcState) (rc : Nat),
      ReachableA g p s rc → s.platform = p ∧ s.isExpoGo = g) := by
  have hstep : ∀ (g : Bool) (r : ProviderRun) (mo : Bool) (s : NfcState) (rc : Nat),
      (checkNfc g r mo s rc).state.platform = s.platform ∧
      (checkNfc g r mo s rc).state.isExpoGo = s.isExpoGo := by
    intro g r mo s rc
    rcases r with ⟨ir, sr, er, tr⟩
    cases g <;> cases mo <;> cases ir <;>
      rcases sr with (_|_) | msr <;>
      rcases er with (_|_) | mer <;>
      rcases tr with _ | mtr <;>
      simp [checkNfc, outerCatch]
  refine ⟨hstep, ?_⟩
  intro g p s rc h
  induction h with
  | mount => exact ⟨rfl, rfl⟩
  | step s rc r mo hr ih =>
    exact ⟨(hstep g r mo s rc).1.trans ih.1, (hstep g r mo s rc).2.trans ih.2⟩

/-- C10 witness: the frame property evaluated at the initial state of the
retry variant. -/
theorem c10_witness :
    (initialNfcState false "android").platform = "android" ∧
    (initialNfcState false "android").isExpoGo = false :=
  c10_platform_and_expo_flag_frame.2 false "android" _ 0 ReachableA.mount
